import Mathlib

/-!
Verification of the osac-terraform provider's reconciliation core.

This file shallowly embeds the provider's resource reconcilers
(compute instance, cluster, host pool, host), the template-parameter
codec, the per-kind state refresh functions, and the `WaitForReady`
poll engine, and proves or refutes the frozen claims about them.

Modelling conventions:
- Terraform framework values (`types.String`, `types.Map`, ...) are
  modelled by `Tf α`, with explicit `null` / `unknown` / `val`
  constructors, matching the framework's three-valued attributes.
- Protobuf messages are plain structures; optional sub-messages
  (`Metadata`, `Spec`, `Status`) are `Option`s, matching Go nil
  pointers.
- Remote gRPC calls are parameters of the reconciler operations:
  a call is a function from the request object to
  `Except String <response>`, where `.error e` models a non-nil Go
  error with message `e`.
- Go durations are natural numbers of milliseconds.
- The wait loop that `WaitForReady` delegates to lives in the external
  terraform-plugin-sdk `retry` package, outside this repository; it is
  modelled from the spec (see `waitLoop`).  Everything else is
  translated from the repository's own source.
-/

namespace Osac

/-- A Terraform framework attribute value: null, unknown, or a concrete
value.  Models `types.String`, `types.Map`, etc. -/
inductive Tf (α : Type) where
  | null : Tf α
  | unknown : Tf α
  | val : α → Tf α
deriving DecidableEq, Repr

namespace Tf

/-- Models the framework's `IsNull`. -/
def isNull : Tf α → Bool
  | .null => true
  | _ => false

/-- Models the framework's `IsUnknown`. -/
def isUnknown : Tf α → Bool
  | .unknown => true
  | _ => false

/-- Models `types.String.ValueString`: the value, or the zero string for
null/unknown. -/
def valueString : Tf String → String
  | .val s => s
  | _ => ""

end Tf

/-- Models `sharedv1.Metadata`. -/
structure Metadata where
  name : String
deriving DecidableEq, Repr

/-! ## Typed parameter codec

`convertTemplateParameters` (compute_instance_resource.go) wraps each
string parameter value as `anypb.New(wrapperspb.String(value))`: a
self-describing `Any` envelope whose type URL names
`google.protobuf.StringValue` and whose payload is the wrapped string.
The payload is modelled as a closed tagged variant, as only the string
kind is produced today. -/

/-- The marshalled payload carried inside an `Any` envelope. -/
inductive PbPayload where
  | str : String → PbPayload
deriving DecidableEq, Repr

/-- The type URL `anypb.New` records for a wrapped
`google.protobuf.StringValue`. -/
def stringValueTypeUrl : String :=
  "type.googleapis.com/google.protobuf.StringValue"

/-- Models `anypb.Any`: a self-describing envelope. -/
structure AnyPb where
  typeUrl : String
  payload : PbPayload
deriving DecidableEq, Repr

/-- Models `anypb.New(wrapperspb.String(value))`. -/
def anyNewString (value : String) : AnyPb :=
  { typeUrl := stringValueTypeUrl, payload := .str value }

/-- The encoding loop of `convertTemplateParameters`: each string value
becomes an `Any` wrapping a `StringValue`.  Go maps are modelled as
association lists. -/
def encodeTemplateParameters (m : List (String × String)) :
    List (String × AnyPb) :=
  m.map fun p => (p.1, anyNewString p.2)

/-- Models `convertTemplateParameters` (compute_instance_resource.go
lines 332-355): a null or unknown map yields no parameters and no
error; otherwise every string value is wrapped in an `Any` envelope.
(The `anypb.New` error branch never fires for plain strings, and the
typed model cannot hit the `ElementsAs` failure branch.) -/
def convertTemplateParameters (tfMap : Tf (List (String × String))) :
    Except String (Option (List (String × AnyPb))) :=
  match tfMap with
  | .null => .ok none
  | .unknown => .ok none
  | .val m => .ok (some (encodeTemplateParameters m))

/-- Modelled from the spec: the decoding half of the parameter codec
(`decode(map[string]Envelope) -> map[string]string`) is not present
under src/ — the repository only contains the encoder
`convertTemplateParameters`.  Per the spec, decoding unwraps each
envelope back to its string value and fails with a decoding error if an
envelope's type tag is unrecognized. -/
def decodeTemplateParameters (m : List (String × AnyPb)) :
    Except String (List (String × String)) :=
  match m with
  | [] => .ok []
  | (k, e) :: rest =>
    if e.typeUrl = stringValueTypeUrl then
      match e.payload with
      | .str s =>
        match decodeTemplateParameters rest with
        | .ok tail => .ok ((k, s) :: tail)
        | .error err => .error err
    else
      .error ("unrecognized parameter type: " ++ e.typeUrl)

/-! ## Host power state parsing -/

/-- Models `fulfillmentv1.HostPowerState`. -/
inductive HostPowerState where
  | unspecified
  | on
  | off
deriving DecidableEq, Repr

/-- The proto enum name returned by Go's `HostPowerState.String()`. -/
def HostPowerState.str : HostPowerState → String
  | .unspecified => "HOST_POWER_STATE_UNSPECIFIED"
  | .on => "HOST_POWER_STATE_ON"
  | .off => "HOST_POWER_STATE_OFF"

/-- Models `parsePowerState` (host resource): a total function on
strings with a silent `UNSPECIFIED` default. -/
def parsePowerState (s : String) : HostPowerState :=
  if s = "HOST_POWER_STATE_ON" ∨ s = "ON" then .on
  else if s = "HOST_POWER_STATE_OFF" ∨ s = "OFF" then .off
  else .unspecified

/-! ## Compute instance remote objects -/

/-- Models `fulfillmentv1.ComputeInstanceState`. -/
inductive ComputeInstanceState where
  | unspecified
  | progressing
  | ready
  | failed
deriving DecidableEq, Repr

/-- The proto enum name returned by Go's `ComputeInstanceState.String()`;
these names appear verbatim in the resource's pending/target state
lists. -/
def ComputeInstanceState.str : ComputeInstanceState → String
  | .unspecified => "COMPUTE_INSTANCE_STATE_UNSPECIFIED"
  | .progressing => "COMPUTE_INSTANCE_STATE_PROGRESSING"
  | .ready => "COMPUTE_INSTANCE_STATE_READY"
  | .failed => "COMPUTE_INSTANCE_STATE_FAILED"

/-- Models `fulfillmentv1.ComputeInstanceStatus`. -/
structure ComputeInstanceStatus where
  state : ComputeInstanceState
  ipAddress : String
deriving DecidableEq, Repr

/-- Models `fulfillmentv1.ComputeInstanceSpec`. -/
structure ComputeInstanceSpec where
  template : String
  templateParameters : Option (List (String × AnyPb)) := none
deriving DecidableEq, Repr

/-- Models `fulfillmentv1.ComputeInstance`: the remote object with
optional metadata, spec and status sub-messages (Go nil pointers). -/
structure ComputeInstance where
  id : String
  metadata : Option Metadata := none
  spec : Option ComputeInstanceSpec := none
  status : Option ComputeInstanceStatus := none
deriving DecidableEq, Repr

/-- Models the closure returned by `instanceStateRefreshFunc`
(compute_instance_resource.go lines 307-329) applied to one remote
`Get` result.  Returns the Go triple `(interface{}, string, error)` as
`(Option object, state string, Option error-message)`. -/
def instanceStateRefreshFunc (get : Except String ComputeInstance) :
    Option ComputeInstance × String × Option String :=
  match get with
  | .error e => (none, "", some ("failed to get compute instance: " ++ e))
  | .ok inst =>
    match inst.status with
    | none => (some inst, ComputeInstanceState.unspecified.str, none)
    | some st =>
      if st.state = .failed then
        (none, ComputeInstanceState.failed.str,
          some "compute instance reached FAILED state")
      else
        (some inst, st.state.str, none)

/-! ## Poll engine

`WaitForReady` (the repository's wait helper) applies defaults and then
delegates the actual polling loop to the external terraform-plugin-sdk
`retry.StateChangeConf`, which is not part of this repository.  The
defaults and the delegation are translated from the source; the loop
itself (`waitLoop`) is modelled from the spec. -/

/-- Models `DefaultCreateTimeout` (30 minutes), in milliseconds. -/
def DefaultCreateTimeout : Nat := 30 * 60 * 1000

/-- Models `DefaultUpdateTimeout` (30 minutes), in milliseconds. -/
def DefaultUpdateTimeout : Nat := 30 * 60 * 1000

/-- Models `DefaultPollInterval` (10 seconds), in milliseconds. -/
def DefaultPollInterval : Nat := 10 * 1000

/-- Models `DefaultMinPollInterval` (5 seconds), in milliseconds. -/
def DefaultMinPollInterval : Nat := 5 * 1000

/-- Models `WaitForReadyConfig`.  The refresh function is a sequence of
refresh results, indexed by the number of the call; each result is the
Go triple `(resource, stateString, error)`. -/
structure WaitForReadyConfig (α : Type) where
  pendingStates : List String
  targetStates : List String
  refreshFunc : Nat → Option α × String × Option String
  timeout : Nat := 0
  pollInterval : Nat := 0
  minPollInterval : Nat := 0

/-- Models the defaults block of `WaitForReady` (lines 60-69): a zero
timeout, poll interval, or minimum poll interval is replaced by the
corresponding default; non-zero values are kept. -/
def applyDefaults (cfg : WaitForReadyConfig α) : WaitForReadyConfig α :=
  { cfg with
    timeout := if cfg.timeout = 0 then DefaultCreateTimeout else cfg.timeout
    pollInterval :=
      if cfg.pollInterval = 0 then DefaultPollInterval else cfg.pollInterval
    minPollInterval :=
      if cfg.minPollInterval = 0 then DefaultMinPollInterval
      else cfg.minPollInterval }

/-- The terminal outcome of one poll-engine run. -/
inductive WaitOutcome (α : Type) where
  | success : Option α → WaitOutcome α
  | refreshError : String → WaitOutcome α
  | unexpectedState : String → WaitOutcome α
  | timedOut : String → WaitOutcome α
deriving DecidableEq, Repr

/-- One finished poll-engine run: its outcome, how many refresh calls it
made, the sleep durations between the polls (in order), and the total
modelled elapsed time. -/
structure WaitRun (α : Type) where
  outcome : WaitOutcome α
  refreshCalls : Nat
  delays : List Nat
  elapsed : Nat
deriving DecidableEq, Repr

/-- Modelled from the spec: the polling loop that `WaitForReady`
delegates to the external terraform-plugin-sdk `retry` package (absent
from this repository).  Per the spec's poll-engine contract: invoke
refresh; stop on a refresh error; stop successfully on a target label;
stop with an unexpected-state error on a label neither pending nor
target; otherwise sleep (the first iteration sleeps
`minPollInterval`, later iterations sleep `pollInterval`) and repeat,
terminating with a timeout carrying the last observed state once the
elapsed time exceeds the timeout.  The fuel argument is an upper bound
on the number of iterations; the wrapper supplies enough fuel that the
fuel-exhaustion branch is unreachable. -/
def waitLoop (refresh : Nat → Option α × String × Option String)
    (pending target : List String) (timeout poll minPoll : Nat) :
    Nat → Nat → Nat → List Nat → WaitRun α
  | 0, iter, elapsed, delays =>
    { outcome := .timedOut "", refreshCalls := iter, delays := delays
      elapsed := elapsed }
  | fuel + 1, iter, elapsed, delays =>
    match refresh iter with
    | (_, _, some e) =>
      { outcome := .refreshError e, refreshCalls := iter + 1
        delays := delays, elapsed := elapsed }
    | (obj, state, none) =>
      if state ∈ target then
        { outcome := .success obj, refreshCalls := iter + 1
          delays := delays, elapsed := elapsed }
      else if state ∈ pending then
        let d := if iter = 0 then minPoll else poll
        if timeout < elapsed + d then
          { outcome := .timedOut state, refreshCalls := iter + 1
            delays := delays ++ [d], elapsed := elapsed + d }
        else
          waitLoop refresh pending target timeout poll minPoll
            fuel (iter + 1) (elapsed + d) (delays ++ [d])
      else
        { outcome := .unexpectedState state, refreshCalls := iter + 1
          delays := delays, elapsed := elapsed }

/-- Runs the poll loop on an already-defaulted configuration. -/
def runStateConf (cfg : WaitForReadyConfig α) : WaitRun α :=
  waitLoop cfg.refreshFunc cfg.pendingStates cfg.targetStates
    cfg.timeout cfg.pollInterval cfg.minPollInterval
    (cfg.timeout + 1) 0 0 []

/-- Models `WaitForReady` (part of the repository's source): apply the
defaults, then run the poll loop. -/
def WaitForReady (cfg : WaitForReadyConfig α) : WaitRun α :=
  runStateConf (applyDefaults cfg)

/-- Models the tail of `WaitForReady`: a loop error is wrapped with
`failed to reach ready state:`, a success returns the final object. -/
def waitOutcomeToResult : WaitOutcome α → Except String (Option α)
  | .success obj => .ok obj
  | .refreshError e => .error ("failed to reach ready state: " ++ e)
  | .unexpectedState s =>
    .error ("failed to reach ready state: unexpected state: " ++ s)
  | .timedOut s =>
    .error ("failed to reach ready state: timeout, last state: " ++ s)

/-! ## Reconciler operations

Each Terraform operation is modelled as a function from the planned or
stored model data and the remote service's behavior to an `OpResult`:
`failure msg` means the Go method added an error diagnostic and
returned before reaching `resp.State.Set`; `success m` means the happy
path reached `resp.State.Set(ctx, m)` (for deletes, `success ()` means
the method returned without an error diagnostic). -/

/-- Outcome of one reconciler operation. -/
inductive OpResult (α : Type) where
  | failure : String → OpResult α
  | success : α → OpResult α
deriving DecidableEq, Repr

/-- Models `ComputeInstanceResourceModel`. -/
structure ComputeInstanceResourceModel where
  id : Tf String := .null
  name : Tf String := .null
  template : Tf String := .null
  templateParameters : Tf (List (String × String)) := .null
  state : Tf String := .null
  ipAddress : Tf String := .null
deriving DecidableEq, Repr

/-- Models `updateModelFromComputeInstance`
(compute_instance_resource.go lines 357-375): the id is always
overwritten; name and template are overwritten only when metadata and
spec are present; state and ip_address are overwritten from a present
status and explicitly set to null when the status is absent. -/
def updateModelFromComputeInstance (model : ComputeInstanceResourceModel)
    (inst : ComputeInstance) : ComputeInstanceResourceModel :=
  let m := { model with id := .val inst.id }
  let m := match inst.metadata with
    | some md => { m with name := .val md.name }
    | none => m
  let m := match inst.spec with
    | some sp => { m with template := .val sp.template }
    | none => m
  match inst.status with
  | some st =>
    { m with state := .val st.state.str, ipAddress := .val st.ipAddress }
  | none =>
    { m with state := .null, ipAddress := .null }

/-- Models `ComputeInstanceResource.Create` (lines 123-192): convert the
template parameters, build the spec and object, call the remote create,
then drive `WaitForReady` with the compute-instance pending and target
state sets, and set the state from the final polled object.  The second
component exposes the poll-engine run when one happened. -/
def computeInstanceCreate (data : ComputeInstanceResourceModel)
    (remoteCreate : ComputeInstance → Except String ComputeInstance)
    (remoteGet : Nat → Except String ComputeInstance) :
    OpResult ComputeInstanceResourceModel × Option (WaitRun ComputeInstance) :=
  match convertTemplateParameters data.templateParameters with
  | .error e =>
    (.failure ("Failed to convert template parameters: " ++ e), none)
  | .ok templateParams =>
    let spec : ComputeInstanceSpec :=
      { template := data.template.valueString
        templateParameters := templateParams }
    let inst : ComputeInstance :=
      { id := "", spec := some spec
        metadata :=
          if data.name.isNull then none
          else some { name := data.name.valueString } }
    match remoteCreate inst with
    | .error e => (.failure ("Failed to create compute instance: " ++ e), none)
    | .ok created =>
      let run := WaitForReady {
        pendingStates := [ComputeInstanceState.unspecified.str,
                          ComputeInstanceState.progressing.str]
        targetStates := [ComputeInstanceState.ready.str]
        refreshFunc := fun n => instanceStateRefreshFunc (remoteGet n)
        timeout := DefaultCreateTimeout }
      match waitOutcomeToResult run.outcome with
      | .error e =>
        (.failure ("Error waiting for compute instance to be ready: Instance "
            ++ created.id ++ ": " ++ e), some run)
      | .ok none =>
        -- Go performs `result.(*fulfillmentv1.ComputeInstance)` here; a
        -- nil result would make that type assertion panic.
        (.failure "panic: nil result from WaitForReady", some run)
      | .ok (some finalInst) =>
        (.success (updateModelFromComputeInstance data finalInst), some run)

/-- Models `ComputeInstanceResource.Update` (lines 215-282): same shape
as create, on an existing id, polling with the update timeout. -/
def computeInstanceUpdate (data : ComputeInstanceResourceModel)
    (remoteUpdate : ComputeInstance → Except String ComputeInstance)
    (remoteGet : Nat → Except String ComputeInstance) :
    OpResult ComputeInstanceResourceModel × Option (WaitRun ComputeInstance) :=
  match convertTemplateParameters data.templateParameters with
  | .error e =>
    (.failure ("Failed to convert template parameters: " ++ e), none)
  | .ok templateParams =>
    let spec : ComputeInstanceSpec :=
      { template := data.template.valueString
        templateParameters := templateParams }
    let inst : ComputeInstance :=
      { id := data.id.valueString, spec := some spec
        metadata :=
          if data.name.isNull then none
          else some { name := data.name.valueString } }
    match remoteUpdate inst with
    | .error e => (.failure ("Failed to update compute instance: " ++ e), none)
    | .ok updated =>
      let run := WaitForReady {
        pendingStates := [ComputeInstanceState.unspecified.str,
                          ComputeInstanceState.progressing.str]
        targetStates := [ComputeInstanceState.ready.str]
        refreshFunc := fun n => instanceStateRefreshFunc (remoteGet n)
        timeout := DefaultUpdateTimeout }
      match waitOutcomeToResult run.outcome with
      | .error e =>
        (.failure
            ("Error waiting for compute instance to be ready after update: Instance "
              ++ updated.id ++ ": " ++ e), some run)
      | .ok none =>
        (.failure "panic: nil result from WaitForReady", some run)
      | .ok (some finalInst) =>
        (.success (updateModelFromComputeInstance data finalInst), some run)

/-- Models `ComputeInstanceResource.Delete` (lines 284-299): one remote
delete call, no polling; a failure is surfaced as a diagnostic. -/
def computeInstanceDelete (data : ComputeInstanceResourceModel)
    (remoteDelete : String → Except String Unit) : OpResult Unit :=
  match remoteDelete data.id.valueString with
  | .error e => .failure ("Failed to delete compute instance: " ++ e)
  | .ok _ => .success ()

/-! ## Cluster reconciler -/

/-- Models `types.Int32.ValueInt32`: the value, or zero for
null/unknown. -/
def Tf.valueInt32 : Tf Int → Int
  | .val n => n
  | _ => 0

/-- Models `fulfillmentv1.ClusterState`; the `.String()` names follow
the proto convention visible for the compute-instance and host-power
enums in the source. -/
inductive ClusterState where
  | unspecified
  | progressing
  | ready
  | failed
deriving DecidableEq, Repr

/-- The proto enum name returned by Go's `ClusterState.String()`. -/
def ClusterState.str : ClusterState → String
  | .unspecified => "CLUSTER_STATE_UNSPECIFIED"
  | .progressing => "CLUSTER_STATE_PROGRESSING"
  | .ready => "CLUSTER_STATE_READY"
  | .failed => "CLUSTER_STATE_FAILED"

/-- Models `fulfillmentv1.ClusterNodeSet`. -/
structure ClusterNodeSet where
  hostClass : String
  size : Int
deriving DecidableEq, Repr

/-- Models `fulfillmentv1.ClusterStatus`. -/
structure ClusterStatus where
  state : ClusterState
  apiUrl : String
  consoleUrl : String
deriving DecidableEq, Repr

/-- Models `fulfillmentv1.ClusterSpec`; the node-set map is an
association list. -/
structure ClusterSpec where
  template : String
  nodeSets : Option (List (String × ClusterNodeSet)) := none
deriving DecidableEq, Repr

/-- Models `fulfillmentv1.Cluster`. -/
structure Cluster where
  id : String
  metadata : Option Metadata := none
  spec : Option ClusterSpec := none
  status : Option ClusterStatus := none
deriving DecidableEq, Repr

/-- Models `NodeSetModel` (Terraform shape of one node set). -/
structure NodeSetModel where
  hostClass : Tf String
  size : Tf Int
deriving DecidableEq, Repr

/-- Models `ClusterResourceModel`. -/
structure ClusterResourceModel where
  id : Tf String := .null
  name : Tf String := .null
  template : Tf String := .null
  templateParameters : Tf (List (String × String)) := .null
  nodeSets : Tf (List (String × NodeSetModel)) := .null
  state : Tf String := .null
  apiUrl : Tf String := .null
  consoleUrl : Tf String := .null
deriving DecidableEq, Repr

/-- The node-set building loop shared by the cluster create and update
methods: each declared node set is mapped into the remote shape. -/
def buildClusterNodeSets (m : List (String × NodeSetModel)) :
    List (String × ClusterNodeSet) :=
  m.map fun p =>
    (p.1, { hostClass := p.2.hostClass.valueString
            size := p.2.size.valueInt32 })

/-- Models `updateModelFromCluster` (cluster_resource.go lines
297-332): id always overwritten; name from a present metadata; template
and node sets from a present spec (node sets only when non-nil); state
and URLs from a present status, with no clearing branch when the status
is absent. -/
def updateModelFromCluster (model : ClusterResourceModel)
    (cluster : Cluster) : ClusterResourceModel :=
  let m := { model with id := .val cluster.id }
  let m := match cluster.metadata with
    | some md => { m with name := .val md.name }
    | none => m
  let m := match cluster.spec with
    | some sp =>
      let m := { m with template := .val sp.template }
      match sp.nodeSets with
      | some ns =>
        { m with nodeSets := .val (ns.map fun p =>
            (p.1, { hostClass := .val p.2.hostClass
                    size := .val p.2.size : NodeSetModel })) }
      | none => m
    | none => m
  match cluster.status with
  | some st =>
    { m with state := .val st.state.str, apiUrl := .val st.apiUrl
             consoleUrl := .val st.consoleUrl }
  | none => m

/-- Models `ClusterResource.Create` (lines 146-201): build the spec
(template and declared node sets), call the remote create, and set the
Terraform state directly from the create response — no polling. -/
def clusterCreate (data : ClusterResourceModel)
    (remoteCreate : Cluster → Except String Cluster) :
    OpResult ClusterResourceModel :=
  let clusterSpec : ClusterSpec := { template := data.template.valueString }
  let clusterSpec :=
    match data.nodeSets with
    | .val m => { clusterSpec with nodeSets := some (buildClusterNodeSets m) }
    | _ => clusterSpec
  let cluster : Cluster :=
    { id := "", spec := some clusterSpec
      metadata :=
        if data.name.isNull then none
        else some { name := data.name.valueString } }
  match remoteCreate cluster with
  | .error e => .failure ("Failed to create cluster: " ++ e)
  | .ok obj => .success (updateModelFromCluster data obj)

/-- Models `ClusterResource.Update` (lines 224-274): rebuild the full
desired spec on the existing id, call the remote update, and set the
state from the update response — no polling. -/
def clusterUpdate (data : ClusterResourceModel)
    (remoteUpdate : Cluster → Except String Cluster) :
    OpResult ClusterResourceModel :=
  let cluster : Cluster :=
    { id := data.id.valueString
      spec := some { template := data.template.valueString } }
  let cluster :=
    match data.nodeSets with
    | .val m =>
      let sp : ClusterSpec :=
        { template := data.template.valueString
          nodeSets := some (buildClusterNodeSets m) }
      { cluster with spec := some sp }
    | _ => cluster
  let cluster :=
    if data.name.isNull then cluster
    else { cluster with metadata := some { name := data.name.valueString } }
  match remoteUpdate cluster with
  | .error e => .failure ("Failed to update cluster: " ++ e)
  | .ok obj => .success (updateModelFromCluster data obj)

/-- Models `ClusterResource.Delete` (lines 276-291). -/
def clusterDelete (data : ClusterResourceModel)
    (remoteDelete : String → Except String Unit) : OpResult Unit :=
  match remoteDelete data.id.valueString with
  | .error e => .failure ("Failed to delete cluster: " ++ e)
  | .ok _ => .success ()

/-! ## Host pool reconciler -/

/-- Models `fulfillmentv1.HostPoolState`. -/
inductive HostPoolState where
  | unspecified
  | progressing
  | ready
  | failed
deriving DecidableEq, Repr

/-- The proto enum name returned by Go's `HostPoolState.String()`. -/
def HostPoolState.str : HostPoolState → String
  | .unspecified => "HOST_POOL_STATE_UNSPECIFIED"
  | .progressing => "HOST_POOL_STATE_PROGRESSING"
  | .ready => "HOST_POOL_STATE_READY"
  | .failed => "HOST_POOL_STATE_FAILED"

/-- Models `fulfillmentv1.HostPoolHostSet`. -/
structure HostPoolHostSet where
  hostClass : String
  size : Int
deriving DecidableEq, Repr

/-- Models `fulfillmentv1.HostPoolStatus`. -/
structure HostPoolStatus where
  state : HostPoolState
  hosts : List String
deriving DecidableEq, Repr

/-- Models `fulfillmentv1.HostPoolSpec`. -/
structure HostPoolSpec where
  hostSets : Option (List (String × HostPoolHostSet)) := none
deriving DecidableEq, Repr

/-- Models `fulfillmentv1.HostPool`. -/
structure HostPool where
  id : String
  metadata : Option Metadata := none
  spec : Option HostPoolSpec := none
  status : Option HostPoolStatus := none
deriving DecidableEq, Repr

/-- Models `HostSetModel` (Terraform shape of one host set). -/
structure HostSetModel where
  hostClass : Tf String
  size : Tf Int
deriving DecidableEq, Repr

/-- Models `HostPoolResourceModel`. -/
structure HostPoolResourceModel where
  id : Tf String := .null
  name : Tf String := .null
  hostSets : Tf (List (String × HostSetModel)) := .null
  state : Tf String := .null
  hosts : Tf (List String) := .null
deriving DecidableEq, Repr

/-- The host-set building loop shared by the host-pool create and
update methods. -/
def buildHostPoolHostSets (m : List (String × HostSetModel)) :
    List (String × HostPoolHostSet) :=
  m.map fun p =>
    (p.1, { hostClass := p.2.hostClass.valueString
            size := p.2.size.valueInt32 })

/-- Models `updateModelFromHostPool` (host pool resource): id always
overwritten; name from a present metadata; host sets only when the spec
and its host-set map are non-nil; state and assigned hosts from a
present status, with no clearing branch when the status is absent. -/
def updateModelFromHostPool (model : HostPoolResourceModel)
    (hostPool : HostPool) : HostPoolResourceModel :=
  let m := { model with id := .val hostPool.id }
  let m := match hostPool.metadata with
    | some md => { m with name := .val md.name }
    | none => m
  let m := match hostPool.spec with
    | some sp =>
      match sp.hostSets with
      | some hs =>
        { m with hostSets := .val (hs.map fun p =>
            (p.1, { hostClass := .val p.2.hostClass
                    size := .val p.2.size : HostSetModel })) }
      | none => m
    | none => m
  match hostPool.status with
  | some st =>
    { m with state := .val st.state.str, hosts := .val st.hosts }
  | none => m

/-- Models `HostPoolResource.Create` (part_001 lines 387-440): build
the spec (declared host sets), call the remote create, and set the
Terraform state directly from the create response — no polling. -/
def hostPoolCreate (data : HostPoolResourceModel)
    (remoteCreate : HostPool → Except String HostPool) :
    OpResult HostPoolResourceModel :=
  let spec : HostPoolSpec := {}
  let spec :=
    match data.hostSets with
    | .val m => { spec with hostSets := some (buildHostPoolHostSets m) }
    | _ => spec
  let hostPool : HostPool :=
    { id := "", spec := some spec
      metadata :=
        if data.name.isNull then none
        else some { name := data.name.valueString } }
  match remoteCreate hostPool with
  | .error e => .failure ("Failed to create host pool: " ++ e)
  | .ok obj => .success (updateModelFromHostPool data obj)

/-- Models `HostPoolResource.Update` (part_001 lines 463-513). -/
def hostPoolUpdate (data : HostPoolResourceModel)
    (remoteUpdate : HostPool → Except String HostPool) :
    OpResult HostPoolResourceModel :=
  let spec : HostPoolSpec := {}
  let spec :=
    match data.hostSets with
    | .val m => { spec with hostSets := some (buildHostPoolHostSets m) }
    | _ => spec
  let hostPool : HostPool :=
    { id := data.id.valueString, spec := some spec
      metadata :=
        if data.name.isNull then none
        else some { name := data.name.valueString } }
  match remoteUpdate hostPool with
  | .error e => .failure ("Failed to update host pool: " ++ e)
  | .ok obj => .success (updateModelFromHostPool data obj)

/-- Models `HostPoolResource.Delete` (part_001 lines 515-530). -/
def hostPoolDelete (data : HostPoolResourceModel)
    (remoteDelete : String → Except String Unit) : OpResult Unit :=
  match remoteDelete data.id.valueString with
  | .error e => .failure ("Failed to delete host pool: " ++ e)
  | .ok _ => .success ()

/-! ## Host reconciler -/

/-- Models `fulfillmentv1.HostState`. -/
inductive HostState where
  | unspecified
  | progressing
  | ready
  | failed
deriving DecidableEq, Repr

/-- The proto enum name returned by Go's `HostState.String()`. -/
def HostState.str : HostState → String
  | .unspecified => "HOST_STATE_UNSPECIFIED"
  | .progressing => "HOST_STATE_PROGRESSING"
  | .ready => "HOST_STATE_READY"
  | .failed => "HOST_STATE_FAILED"

/-- Models `fulfillmentv1.HostStatus`. -/
structure HostStatus where
  state : HostState
  powerState : HostPowerState
deriving DecidableEq, Repr

/-- Models `fulfillmentv1.HostSpec`; the proto zero value of the power
state is `UNSPECIFIED`. -/
structure HostSpec where
  powerState : HostPowerState := .unspecified
deriving DecidableEq, Repr

/-- Models `fulfillmentv1.Host`. -/
structure Host where
  id : String
  metadata : Option Metadata := none
  spec : Option HostSpec := none
  status : Option HostStatus := none
deriving DecidableEq, Repr

/-- Models `HostResourceModel`. -/
structure HostResourceModel where
  id : Tf String := .null
  name : Tf String := .null
  powerState : Tf String := .null
  state : Tf String := .null
  currentPowerState : Tf String := .null
deriving DecidableEq, Repr

/-- Models `updateModelFromHost` (part_001 lines 231-246). -/
def updateModelFromHost (model : HostResourceModel) (host : Host) :
    HostResourceModel :=
  let m := { model with id := .val host.id }
  let m := match host.metadata with
    | some md => { m with name := .val md.name }
    | none => m
  let m := match host.spec with
    | some sp => { m with powerState := .val sp.powerState.str }
    | none => m
  match host.status with
  | some st =>
    { m with state := .val st.state.str
             currentPowerState := .val st.powerState.str }
  | none => m

/-- Models `HostResource.Create` (part_001 lines 108-148): build the
spec (parsing the desired power state when declared), call the remote
create, and set the state from the create response — no polling. -/
def hostCreate (data : HostResourceModel)
    (remoteCreate : Host → Except String Host) : OpResult HostResourceModel :=
  let spec : HostSpec := {}
  let spec :=
    if data.powerState.isNull then spec
    else { spec with powerState := parsePowerState data.powerState.valueString }
  let host : Host :=
    { id := "", spec := some spec
      metadata :=
        if data.name.isNull then none
        else some { name := data.name.valueString } }
  match remoteCreate host with
  | .error e => .failure ("Failed to create host: " ++ e)
  | .ok obj => .success (updateModelFromHost data obj)

/-- Models `HostResource.Update` (part_001 lines 171-208). -/
def hostUpdate (data : HostResourceModel)
    (remoteUpdate : Host → Except String Host) : OpResult HostResourceModel :=
  let spec : HostSpec := {}
  let spec :=
    if data.powerState.isNull then spec
    else { spec with powerState := parsePowerState data.powerState.valueString }
  let host : Host :=
    { id := data.id.valueString, spec := some spec
      metadata :=
        if data.name.isNull then none
        else some { name := data.name.valueString } }
  match remoteUpdate host with
  | .error e => .failure ("Failed to update host: " ++ e)
  | .ok obj => .success (updateModelFromHost data obj)

/-- Models `HostResource.Delete` (part_001 lines 210-225). -/
def hostDelete (data : HostResourceModel)
    (remoteDelete : String → Except String Unit) : OpResult Unit :=
  match remoteDelete data.id.valueString with
  | .error e => .failure ("Failed to delete host: " ++ e)
  | .ok _ => .success ()

/-! ## Poll-loop step lemmas -/

theorem waitLoop_step_err {α : Type}
    (refresh : Nat → Option α × String × Option String)
    (pending target : List String) (timeout poll minPoll : Nat)
    (fuel iter elapsed : Nat) (delays : List Nat)
    (o : Option α) (s e : String) (h : refresh iter = (o, s, some e)) :
    waitLoop refresh pending target timeout poll minPoll
        (fuel + 1) iter elapsed delays =
      { outcome := .refreshError e, refreshCalls := iter + 1
        delays := delays, elapsed := elapsed } := by
  simp [waitLoop, h]

theorem waitLoop_step_target {α : Type}
    (refresh : Nat → Option α × String × Option String)
    (pending target : List String) (timeout poll minPoll : Nat)
    (fuel iter elapsed : Nat) (delays : List Nat)
    (o : Option α) (s : String) (h : refresh iter = (o, s, none))
    (hs : s ∈ target) :
    waitLoop refresh pending target timeout poll minPoll
        (fuel + 1) iter elapsed delays =
      { outcome := .success o, refreshCalls := iter + 1
        delays := delays, elapsed := elapsed } := by
  simp [waitLoop, h, hs]

theorem waitLoop_step_unexpected {α : Type}
    (refresh : Nat → Option α × String × Option String)
    (pending target : List String) (timeout poll minPoll : Nat)
    (fuel iter elapsed : Nat) (delays : List Nat)
    (o : Option α) (s : String) (h : refresh iter = (o, s, none))
    (hst : s ∉ target) (hsp : s ∉ pending) :
    waitLoop refresh pending target timeout poll minPoll
        (fuel + 1) iter elapsed delays =
      { outcome := .unexpectedState s, refreshCalls := iter + 1
        delays := delays, elapsed := elapsed } := by
  simp [waitLoop, h, hst, hsp]

theorem waitLoop_step_timeout {α : Type}
    (refresh : Nat → Option α × String × Option String)
    (pending target : List String) (timeout poll minPoll : Nat)
    (fuel iter elapsed : Nat) (delays : List Nat)
    (o : Option α) (s : String) (h : refresh iter = (o, s, none))
    (hst : s ∉ target) (hsp : s ∈ pending)
    (hd : timeout < elapsed + (if iter = 0 then minPoll else poll)) :
    waitLoop refresh pending target timeout poll minPoll
        (fuel + 1) iter elapsed delays =
      { outcome := .timedOut s, refreshCalls := iter + 1
        delays := delays ++ [if iter = 0 then minPoll else poll]
        elapsed := elapsed + (if iter = 0 then minPoll else poll) } := by
  simp [waitLoop, h, hst, hsp, hd]

theorem waitLoop_step_pending {α : Type}
    (refresh : Nat → Option α × String × Option String)
    (pending target : List String) (timeout poll minPoll : Nat)
    (fuel iter elapsed : Nat) (delays : List Nat)
    (o : Option α) (s : String) (h : refresh iter = (o, s, none))
    (hst : s ∉ target) (hsp : s ∈ pending)
    (hd : elapsed + (if iter = 0 then minPoll else poll) ≤ timeout) :
    waitLoop refresh pending target timeout poll minPoll
        (fuel + 1) iter elapsed delays =
      waitLoop refresh pending target timeout poll minPoll
        fuel (iter + 1) (elapsed + (if iter = 0 then minPoll else poll))
        (delays ++ [if iter = 0 then minPoll else poll]) := by
  simp [waitLoop, h, hst, hsp, Nat.not_lt.mpr hd]

theorem waitLoop_always_pending {α : Type}
    (refresh : Nat → Option α × String × Option String)
    (pending target : List String) (timeout poll minPoll : Nat)
    (hpoll : 1 ≤ poll) (hmin : 1 ≤ minPoll)
    (href : ∀ n, ∃ o s, refresh n = (o, s, none) ∧
        s ∈ pending ∧ s ∉ target) :
    ∀ fuel iter elapsed delays, elapsed ≤ timeout →
      timeout + 1 ≤ fuel + elapsed →
      ∃ s,
        (waitLoop refresh pending target timeout poll minPoll
            fuel iter elapsed delays).outcome = .timedOut s ∧
        (waitLoop refresh pending target timeout poll minPoll
            fuel iter elapsed delays).elapsed ≤
          timeout + max minPoll poll := by
  intro fuel
  induction fuel with
  | zero => intro iter elapsed delays hel hfu; omega
  | succ f ih =>
    intro iter elapsed delays hel hfu
    obtain ⟨o, s, hr, hsp, hst⟩ := href iter
    set d := if iter = 0 then minPoll else poll with hd
    have hdle : d ≤ max minPoll poll := by
      rw [hd]; split
      · exact le_max_left _ _
      · exact le_max_right _ _
    have hd1 : 1 ≤ d := by
      rw [hd]; split
      · exact hmin
      · exact hpoll
    by_cases hto : timeout < elapsed + d
    · rw [waitLoop_step_timeout refresh pending target timeout poll minPoll
        f iter elapsed delays o s hr hst hsp hto]
      exact ⟨s, rfl, add_le_add hel hdle⟩
    · rw [waitLoop_step_pending refresh pending target timeout poll minPoll
        f iter elapsed delays o s hr hst hsp (Nat.not_lt.mp hto)]
      exact ih (iter + 1) (elapsed + d) (delays ++ [d])
        (Nat.not_lt.mp hto) (by omega)

theorem waitLoop_success_inv {α : Type}
    (refresh : Nat → Option α × String × Option String)
    (pending target : List String) (timeout poll minPoll : Nat) :
    ∀ fuel iter elapsed delays (obj : Option α),
      (waitLoop refresh pending target timeout poll minPoll
          fuel iter elapsed delays).outcome = .success obj →
      ∃ n s, refresh n = (obj, s, none) ∧ s ∈ target := by
  intro fuel
  induction fuel with
  | zero =>
    intro iter elapsed delays obj h
    simp [waitLoop] at h
  | succ f ih =>
    intro iter elapsed delays obj h
    rcases hr : refresh iter with ⟨o, s, oe⟩
    cases oe with
    | some e =>
      rw [waitLoop_step_err refresh pending target timeout poll minPoll
        f iter elapsed delays o s e hr] at h
      simp at h
    | none =>
      by_cases hst : s ∈ target
      · rw [waitLoop_step_target refresh pending target timeout poll minPoll
          f iter elapsed delays o s hr hst] at h
        simp at h
        exact ⟨iter, s, by rw [hr, h], hst⟩
      · by_cases hsp : s ∈ pending
        · by_cases hto :
            timeout < elapsed + (if iter = 0 then minPoll else poll)
          · rw [waitLoop_step_timeout refresh pending target timeout poll
              minPoll f iter elapsed delays o s hr hst hsp hto] at h
            simp at h
          · rw [waitLoop_step_pending refresh pending target timeout poll
              minPoll f iter elapsed delays o s hr hst hsp
              (Nat.not_lt.mp hto)] at h
            exact ih _ _ _ _ h
        · rw [waitLoop_step_unexpected refresh pending target timeout poll
            minPoll f iter elapsed delays o s hr hst hsp] at h
          simp at h

theorem waitOutcomeToResult_ok_inv {α : Type} (w : WaitOutcome α)
    (obj : Option α) (h : waitOutcomeToResult w = .ok obj) :
    w = .success obj := by
  cases w <;> simp [waitOutcomeToResult] at h
  rw [h]

theorem instanceRefresh_ready_inv (get : Except String ComputeInstance)
    (obj : Option ComputeInstance)
    (h : instanceStateRefreshFunc get =
      (obj, "COMPUTE_INSTANCE_STATE_READY", none)) :
    ∃ inst st, obj = some inst ∧ inst.status = some st ∧
      st.state = .ready := by
  cases get with
  | error e => simp [instanceStateRefreshFunc] at h
  | ok inst =>
    cases hs : inst.status with
    | none =>
      rw [instanceStateRefreshFunc] at h
      simp only [hs] at h
      exact absurd
        (show ("COMPUTE_INSTANCE_STATE_UNSPECIFIED" : String) =
            "COMPUTE_INSTANCE_STATE_READY" from congrArg (fun t => t.2.1) h)
        (by decide)
    | some st =>
      rw [instanceStateRefreshFunc] at h
      simp only [hs] at h
      by_cases hf : st.state = .failed
      · rw [if_pos hf] at h
        exact absurd
          (show some "compute instance reached FAILED state" =
              (none : Option String) from congrArg (fun t => t.2.2) h)
          (by simp)
      · rw [if_neg hf] at h
        refine ⟨inst, st, ?_, hs, ?_⟩
        · exact (show some inst = obj from congrArg (fun t => t.1) h).symm
        · have hstr : st.state.str = "COMPUTE_INSTANCE_STATE_READY" :=
            congrArg (fun t => t.2.1) h
          cases hc : st.state
          · rw [hc] at hstr; exact absurd hstr (by decide)
          · rw [hc] at hstr; exact absurd hstr (by decide)
          · rfl
          · exact absurd hc hf

theorem ciWait_ready_state (cfg : WaitForReadyConfig ComputeInstance)
    (rg : Nat → Except String ComputeInstance)
    (hrf : cfg.refreshFunc = fun n => instanceStateRefreshFunc (rg n))
    (htg : cfg.targetStates = [ComputeInstanceState.ready.str])
    (finalInst : ComputeInstance)
    (hok : waitOutcomeToResult (WaitForReady cfg).outcome =
      .ok (some finalInst)) :
    ∃ st, finalInst.status = some st ∧ st.state = .ready := by
  have hout := waitOutcomeToResult_ok_inv _ _ hok
  have hinv := waitLoop_success_inv (applyDefaults cfg).refreshFunc
    (applyDefaults cfg).pendingStates (applyDefaults cfg).targetStates
    (applyDefaults cfg).timeout (applyDefaults cfg).pollInterval
    (applyDefaults cfg).minPollInterval ((applyDefaults cfg).timeout + 1)
    0 0 [] (some finalInst) hout
  obtain ⟨n, s, hrefresh, hmem⟩ := hinv
  rw [show (applyDefaults cfg).targetStates = cfg.targetStates from rfl,
    htg] at hmem
  have hs : s = "COMPUTE_INSTANCE_STATE_READY" := by
    simpa [ComputeInstanceState.str] using hmem
  subst hs
  rw [show (applyDefaults cfg).refreshFunc = cfg.refreshFunc from rfl,
    hrf] at hrefresh
  obtain ⟨inst, st, hobj, hstatus, hready⟩ :=
    instanceRefresh_ready_inv (rg n) (some finalInst) hrefresh
  obtain rfl : finalInst = inst := by injection hobj
  exact ⟨st, hstatus, hready⟩

/-! ## Claim theorems -/

/-- C10: `parsePowerState` is total on strings: it returns `ON` exactly
for `"ON"` and `"HOST_POWER_STATE_ON"`, `OFF` exactly for `"OFF"` and
`"HOST_POWER_STATE_OFF"`, and `UNSPECIFIED` for every other string —
an invalid desired power state is never rejected. -/
theorem parsePowerState_total (s : String) :
    (parsePowerState s = .on ↔
      s = "ON" ∨ s = "HOST_POWER_STATE_ON") ∧
    (parsePowerState s = .off ↔
      s = "OFF" ∨ s = "HOST_POWER_STATE_OFF") ∧
    (s ≠ "ON" ∧ s ≠ "HOST_POWER_STATE_ON" ∧
        s ≠ "OFF" ∧ s ≠ "HOST_POWER_STATE_OFF" →
      parsePowerState s = .unspecified) := by
  unfold parsePowerState
  by_cases h1 : s = "HOST_POWER_STATE_ON" ∨ s = "ON"
  · rcases h1 with h1 | h1 <;> subst h1 <;> decide
  · by_cases h2 : s = "HOST_POWER_STATE_OFF" ∨ s = "OFF"
    · rcases h2 with h2 | h2 <;> subst h2 <;> decide
    · push_neg at h1 h2
      rw [if_neg (not_or.mpr h1), if_neg (not_or.mpr h2)]
      simp [h1.1, h1.2, h2.1, h2.2]

/-- Witness for C10: an arbitrary other string maps to `UNSPECIFIED`. -/
theorem parsePowerState_total_witness :
    parsePowerState "RESTART" = .unspecified :=
  (parsePowerState_total "RESTART").2.2 (by decide)

/-- C4: when the fetched compute instance has no status, the refresh
function returns the object together with the `UNSPECIFIED` pending
label and no error, so polling continues. -/
theorem instanceRefresh_absent_status_pending (inst : ComputeInstance)
    (h : inst.status = none) :
    instanceStateRefreshFunc (.ok inst) =
      (some inst, "COMPUTE_INSTANCE_STATE_UNSPECIFIED", none) := by
  simp [instanceStateRefreshFunc, h, ComputeInstanceState.str]

/-- Witness for C4 at a concrete status-less object. -/
theorem instanceRefresh_absent_status_pending_witness :
    instanceStateRefreshFunc (.ok { id := "i-1" }) =
      (some { id := "i-1" }, "COMPUTE_INSTANCE_STATE_UNSPECIFIED", none) :=
  instanceRefresh_absent_status_pending { id := "i-1" } rfl

/-- C9: `updateModelFromComputeInstance` always overwrites the id; with
a nil status it explicitly nulls the state and ip_address fields; with
nil metadata or spec it leaves name or template unchanged. -/
theorem updateModelFromComputeInstance_frame
    (model : ComputeInstanceResourceModel) (inst : ComputeInstance) :
    (updateModelFromComputeInstance model inst).id = .val inst.id ∧
    (inst.status = none →
      (updateModelFromComputeInstance model inst).state = .null ∧
      (updateModelFromComputeInstance model inst).ipAddress = .null) ∧
    (inst.metadata = none →
      (updateModelFromComputeInstance model inst).name = model.name) ∧
    (inst.spec = none →
      (updateModelFromComputeInstance model inst).template = model.template) := by
  rcases inst with ⟨id, md, sp, st⟩
  unfold updateModelFromComputeInstance
  cases md <;> cases sp <;> cases st <;> simp

/-- Witness for C9 at a concrete model and status-less object. -/
theorem updateModelFromComputeInstance_frame_witness :
    (updateModelFromComputeInstance
        { state := .val "COMPUTE_INSTANCE_STATE_READY"
          ipAddress := .val "10.0.0.1" } { id := "i-2" }).state = .null ∧
    (updateModelFromComputeInstance
        { state := .val "COMPUTE_INSTANCE_STATE_READY"
          ipAddress := .val "10.0.0.1" } { id := "i-2" }).ipAddress = .null :=
  (updateModelFromComputeInstance_frame
    { state := .val "COMPUTE_INSTANCE_STATE_READY"
      ipAddress := .val "10.0.0.1" } { id := "i-2" }).2.1 rfl

/-- C3: decoding the encoding of any string parameter map yields the
map back exactly, and `convertTemplateParameters` produces exactly that
encoding for a present map. -/
theorem templateParameters_roundtrip (m : List (String × String)) :
    convertTemplateParameters (.val m) =
      .ok (some (encodeTemplateParameters m)) ∧
    decodeTemplateParameters (encodeTemplateParameters m) = .ok m := by
  refine ⟨rfl, ?_⟩
  induction m with
  | nil => rfl
  | cons p rest ih =>
    simp [encodeTemplateParameters, decodeTemplateParameters,
      anyNewString] at ih ⊢
    rw [ih]

/-- C6: `WaitForReady` first replaces a zero timeout, poll interval, or
minimum poll interval with the defaults of 30 minutes, 10 seconds and
5 seconds (in milliseconds), keeps non-zero values unchanged, and only
then runs the poll loop. -/
theorem waitForReady_defaults {α : Type} (cfg : WaitForReadyConfig α) :
    WaitForReady cfg = runStateConf (applyDefaults cfg) ∧
    (cfg.timeout = 0 →
      (applyDefaults cfg).timeout = DefaultCreateTimeout) ∧
    (cfg.timeout ≠ 0 → (applyDefaults cfg).timeout = cfg.timeout) ∧
    (cfg.pollInterval = 0 →
      (applyDefaults cfg).pollInterval = DefaultPollInterval) ∧
    (cfg.pollInterval ≠ 0 →
      (applyDefaults cfg).pollInterval = cfg.pollInterval) ∧
    (cfg.minPollInterval = 0 →
      (applyDefaults cfg).minPollInterval = DefaultMinPollInterval) ∧
    (cfg.minPollInterval ≠ 0 →
      (applyDefaults cfg).minPollInterval = cfg.minPollInterval) ∧
    DefaultCreateTimeout = 30 * 60 * 1000 ∧
    DefaultPollInterval = 10 * 1000 ∧
    DefaultMinPollInterval = 5 * 1000 := by
  refine ⟨rfl, ?_, ?_, ?_, ?_, ?_, ?_, rfl, rfl, rfl⟩ <;>
    intro h <;> simp [applyDefaults, h]

/-- C2: for the poll engine (the loop is modelled from the spec, as it
is delegated to the external SDK), the delay before the first repeat
poll is `minPollInterval` and every later delay is `pollInterval`: a
Progressing, Progressing, Ready refresh sequence returns the object of
the third refresh with no error, having slept exactly twice, first
`minPollInterval` and then `pollInterval`. -/
theorem waitForReady_scenario_A {α : Type}
    (refresh : Nat → Option α × String × Option String)
    (o0 o1 o2 : α) (timeout poll minPoll : Nat)
    (ht : timeout ≠ 0) (hp : poll ≠ 0) (hm : minPoll ≠ 0)
    (hbound : minPoll + poll ≤ timeout)
    (h0 : refresh 0 = (some o0, "COMPUTE_INSTANCE_STATE_PROGRESSING", none))
    (h1 : refresh 1 = (some o1, "COMPUTE_INSTANCE_STATE_PROGRESSING", none))
    (h2 : refresh 2 = (some o2, "COMPUTE_INSTANCE_STATE_READY", none)) :
    WaitForReady
        { pendingStates := [ComputeInstanceState.unspecified.str,
                            ComputeInstanceState.progressing.str]
          targetStates := [ComputeInstanceState.ready.str]
          refreshFunc := refresh
          timeout := timeout, pollInterval := poll
          minPollInterval := minPoll } =
      { outcome := .success (some o2), refreshCalls := 3
        delays := [minPoll, poll], elapsed := minPoll + poll } := by
  obtain ⟨pp, rfl⟩ : ∃ pp, poll = pp + 1 := ⟨poll - 1, by omega⟩
  obtain ⟨mm, rfl⟩ : ∃ mm, minPoll = mm + 1 := ⟨minPoll - 1, by omega⟩
  obtain ⟨k, rfl⟩ := Nat.exists_eq_add_of_le hbound
  unfold WaitForReady runStateConf
  have ht' : ¬(mm + 1 + (pp + 1) + k = 0) := by omega
  simp only [applyDefaults, if_neg ht', if_neg hp, if_neg hm]
  rw [waitLoop_step_pending refresh _ _ _ _ _ _ _ _ _ _ _ h0
    (by decide) (by decide) (by simp; omega)]
  simp only [reduceIte, Nat.zero_add, List.nil_append]
  have e1 : mm + 1 + (pp + 1) + k = (mm + 1 + pp + k) + 1 := by omega
  rw [e1]
  rw [waitLoop_step_pending refresh _ _ _ _ _ _ _ _ _ _ _ h1
    (by decide) (by decide) (by simp; omega)]
  simp only [if_neg Nat.one_ne_zero]
  have e2 : mm + 1 + pp + k = (mm + pp + k) + 1 := by omega
  rw [e2]
  rw [waitLoop_step_target refresh _ _ _ _ _ _ _ _ _ _ _ h2 (by decide)]
  simp

/-- Witness for C2: a concrete Progressing, Progressing, Ready run with
timeout 50, poll interval 20 and minimum poll interval 10 returns the
third object after delays of exactly 10 and then 20. -/
theorem waitForReady_scenario_A_witness :
    WaitForReady
        { pendingStates := [ComputeInstanceState.unspecified.str,
                            ComputeInstanceState.progressing.str]
          targetStates := [ComputeInstanceState.ready.str]
          refreshFunc := fun n =>
            if n = 0 then (some 10, "COMPUTE_INSTANCE_STATE_PROGRESSING", none)
            else if n = 1 then
              (some 11, "COMPUTE_INSTANCE_STATE_PROGRESSING", none)
            else (some 12, "COMPUTE_INSTANCE_STATE_READY", none)
          timeout := 50, pollInterval := 20, minPollInterval := 10 } =
      { outcome := .success (some 12), refreshCalls := 3
        delays := [10, 20], elapsed := 30 } :=
  waitForReady_scenario_A _ 10 11 12 50 20 10 (by decide) (by decide)
    (by decide) (by decide) rfl rfl rfl

/-- C7: if the refresh function always returns a pending label,
`WaitForReady` terminates with a timeout outcome; the total modelled
elapsed time is at most the (defaulted) timeout plus the larger poll
interval, hence at most timeout + pollInterval whenever the minimum
poll interval does not exceed the poll interval (true in particular of
the defaults).  The loop itself is modelled from the spec, as it is
delegated to the external SDK. -/
theorem waitForReady_always_pending_timeout {α : Type}
    (cfg : WaitForReadyConfig α)
    (href : ∀ n, ∃ o s, cfg.refreshFunc n = (o, s, none) ∧
        s ∈ cfg.pendingStates ∧ s ∉ cfg.targetStates) :
    (∃ s, (WaitForReady cfg).outcome = .timedOut s) ∧
    (WaitForReady cfg).elapsed ≤ (applyDefaults cfg).timeout +
      max (applyDefaults cfg).minPollInterval
        (applyDefaults cfg).pollInterval ∧
    ((applyDefaults cfg).minPollInterval ≤
        (applyDefaults cfg).pollInterval →
      (WaitForReady cfg).elapsed ≤
        (applyDefaults cfg).timeout + (applyDefaults cfg).pollInterval) := by
  have hpoll : 1 ≤ (applyDefaults cfg).pollInterval := by
    simp only [applyDefaults]
    split
    · decide
    · omega
  have hmin : 1 ≤ (applyDefaults cfg).minPollInterval := by
    simp only [applyDefaults]
    split
    · decide
    · omega
  have key := waitLoop_always_pending
    (applyDefaults cfg).refreshFunc (applyDefaults cfg).pendingStates
    (applyDefaults cfg).targetStates (applyDefaults cfg).timeout
    (applyDefaults cfg).pollInterval (applyDefaults cfg).minPollInterval
    hpoll hmin href ((applyDefaults cfg).timeout + 1) 0 0 []
    (Nat.zero_le _) (by omega)
  obtain ⟨s, hs, hb⟩ := key
  refine ⟨⟨s, hs⟩, hb, fun hle => ?_⟩
  calc (WaitForReady cfg).elapsed
      ≤ (applyDefaults cfg).timeout +
        max (applyDefaults cfg).minPollInterval
          (applyDefaults cfg).pollInterval := hb
    _ = (applyDefaults cfg).timeout + (applyDefaults cfg).pollInterval := by
        rw [max_eq_right hle]

/-- Witness for C7: a refresh that always reports a pending label, with
timeout 3 and both intervals 1, ends in a timeout outcome. -/
theorem waitForReady_always_pending_timeout_witness :
    ∃ s,
      (WaitForReady
          { pendingStates := ["P"], targetStates := ["R"]
            refreshFunc := fun _ => ((none : Option Unit), "P", none)
            timeout := 3, pollInterval := 1
            minPollInterval := 1 }).outcome = .timedOut s :=
  (waitForReady_always_pending_timeout _
    (fun _ => ⟨none, "P", rfl, by decide, by decide⟩)).1

/-- Counterexample for C5: for a FAILED instance, the refresh function
returns the fixed error message `compute instance reached FAILED
state`, which does not contain the resource id — the classification
error does not carry the id as the claim states (the enclosing
operation adds the id only when reporting the diagnostic). -/
theorem refresh_failed_error_lacks_id_cx :
    instanceStateRefreshFunc
        (.ok ⟨"my-instance-7", none, none, some ⟨.failed, ""⟩⟩) =
      (none, "COMPUTE_INSTANCE_STATE_FAILED",
        some "compute instance reached FAILED state") ∧
    ¬ List.IsInfix "my-instance-7".toList
        "compute instance reached FAILED state".toList ∧
    instanceStateRefreshFunc
        (.ok ⟨"my-instance-7", none, none, some ⟨.failed, ""⟩⟩) =
      instanceStateRefreshFunc
        (.ok ⟨"another-id", none, none, some ⟨.failed, ""⟩⟩) := by
  refine ⟨rfl, by decide, rfl⟩

/-- C5 (amended): for a FAILED status the refresh function returns a
non-nil error with the fixed message `compute instance reached FAILED
state` (no resource id inside), and the poll engine stops immediately
on a refresh error: no sleeps, exactly one refresh call. -/
theorem refresh_failed_stops_polling (inst : ComputeInstance)
    (st : ComputeInstanceStatus) (hst : inst.status = some st)
    (hf : st.state = .failed) {α : Type} (cfg : WaitForReadyConfig α)
    (o : Option α) (s e : String)
    (h0 : cfg.refreshFunc 0 = (o, s, some e)) :
    instanceStateRefreshFunc (.ok inst) =
      (none, "COMPUTE_INSTANCE_STATE_FAILED",
        some "compute instance reached FAILED state") ∧
    (WaitForReady cfg).outcome = .refreshError e ∧
    (WaitForReady cfg).delays = [] ∧
    (WaitForReady cfg).refreshCalls = 1 := by
  have h0' : (applyDefaults cfg).refreshFunc 0 = (o, s, some e) := h0
  have hw : WaitForReady cfg =
      waitLoop (applyDefaults cfg).refreshFunc
        (applyDefaults cfg).pendingStates (applyDefaults cfg).targetStates
        (applyDefaults cfg).timeout (applyDefaults cfg).pollInterval
        (applyDefaults cfg).minPollInterval
        ((applyDefaults cfg).timeout + 1) 0 0 [] := rfl
  refine ⟨?_, ?_, ?_, ?_⟩
  · simp [instanceStateRefreshFunc, hst, hf, ComputeInstanceState.str]
  · rw [hw, waitLoop_step_err _ _ _ _ _ _ _ _ _ _ o s e h0']
  · rw [hw, waitLoop_step_err _ _ _ _ _ _ _ _ _ _ o s e h0']
  · rw [hw, waitLoop_step_err _ _ _ _ _ _ _ _ _ _ o s e h0']

/-- Witness for C5: a concrete FAILED object and a concrete
error-returning refresh sequence. -/
theorem refresh_failed_stops_polling_witness :
    instanceStateRefreshFunc
        (.ok ⟨"i-9", none, none, some ⟨.failed, ""⟩⟩) =
      (none, "COMPUTE_INSTANCE_STATE_FAILED",
        some "compute instance reached FAILED state") ∧
    (WaitForReady
        { pendingStates := ["P"], targetStates := ["R"]
          refreshFunc :=
            fun _ => ((none : Option Unit), "", some "boom") }).outcome
      = .refreshError "boom" :=
  ⟨(refresh_failed_stops_polling
      ⟨"i-9", none, none, some ⟨.failed, ""⟩⟩
      ⟨.failed, ""⟩ rfl rfl
      { pendingStates := ["P"], targetStates := ["R"]
        refreshFunc := fun _ => ((none : Option Unit), "", some "boom") }
      none "" "boom" rfl).1,
   (refresh_failed_stops_polling
      ⟨"i-9", none, none, some ⟨.failed, ""⟩⟩
      ⟨.failed, ""⟩ rfl rfl
      { pendingStates := ["P"], targetStates := ["R"]
        refreshFunc := fun _ => ((none : Option Unit), "", some "boom") }
      none "" "boom" rfl).2.1⟩

/-- Counterexample for C1: `ClusterResource.Create` and
`HostPoolResource.Create` do not drive the poll engine — each sets the
Terraform state straight from the create response, so creation can
return a non-terminal (PROGRESSING, not READY) object. -/
theorem cluster_hostpool_create_no_poll_cx :
    clusterCreate {}
        (fun _ => .ok ⟨"c-1", none, none, some ⟨.progressing, "", ""⟩⟩) =
      .success { id := .val "c-1"
                 state := .val "CLUSTER_STATE_PROGRESSING"
                 apiUrl := .val "", consoleUrl := .val "" } ∧
    ("CLUSTER_STATE_PROGRESSING" : String) ≠ "CLUSTER_STATE_READY" ∧
    hostPoolCreate {}
        (fun _ => .ok ⟨"hp-1", none, none, some ⟨.progressing, []⟩⟩) =
      .success { id := .val "hp-1"
                 state := .val "HOST_POOL_STATE_PROGRESSING"
                 hosts := .val [] } ∧
    ("HOST_POOL_STATE_PROGRESSING" : String) ≠ "HOST_POOL_STATE_READY" :=
  ⟨rfl, by decide, rfl, by decide⟩

/-- C1 (amended): only the compute-instance reconciler's Create drives
the poll engine after a successful remote create — when it succeeds,
the recorded state is READY (terminal) and a poll run took place.  The
cluster and host-pool Creates perform no polling: on a successful
remote create they record the create response as-is, whatever its
status. -/
theorem create_polls_only_compute_instance :
    (∀ (data : ComputeInstanceResourceModel)
        (rc : ComputeInstance → Except String ComputeInstance)
        (rg : Nat → Except String ComputeInstance)
        (m : ComputeInstanceResourceModel)
        (run : Option (WaitRun ComputeInstance)),
      computeInstanceCreate data rc rg = (.success m, run) →
        m.state = .val "COMPUTE_INSTANCE_STATE_READY" ∧ run.isSome = true) ∧
    (∀ (data : ClusterResourceModel) (resp : Cluster),
      clusterCreate data (fun _ => .ok resp) =
        .success (updateModelFromCluster data resp)) ∧
    (∀ (data : HostPoolResourceModel) (resp : HostPool),
      hostPoolCreate data (fun _ => .ok resp) =
        .success (updateModelFromHostPool data resp)) := by
  refine ⟨?_, fun data resp => rfl, fun data resp => rfl⟩
  intro data rc rg m run h
  have hp : ∃ p, convertTemplateParameters data.templateParameters = .ok p := by
    cases data.templateParameters <;> exact ⟨_, rfl⟩
  obtain ⟨p, hp⟩ := hp
  unfold computeInstanceCreate at h
  rw [hp] at h
  dsimp only [] at h
  split at h
  · simp at h
  · split at h
    · simp at h
    · simp at h
    · rename_i finalInst hok
      simp at h
      obtain ⟨hm, hrun⟩ := h
      obtain ⟨st, hstatus, hready⟩ :=
        ciWait_ready_state _ rg rfl rfl finalInst hok
      refine ⟨?_, ?_⟩
      · rw [← hm]
        unfold updateModelFromComputeInstance
        rw [hstatus]
        simp [hready, ComputeInstanceState.str]
      · rw [← hrun]
        rfl

/-- Witness for C1 (amended): a concrete compute-instance create whose
single poll immediately observes READY succeeds with the READY state
recorded and a poll run present. -/
theorem create_polls_only_compute_instance_witness :
    ({ id := .val "i-1", state := .val "COMPUTE_INSTANCE_STATE_READY"
       ipAddress := .val "10.0.0.9" } :
        ComputeInstanceResourceModel).state =
      .val "COMPUTE_INSTANCE_STATE_READY" ∧
    (some ({ outcome :=
               .success (some ⟨"i-1", none, none, some ⟨.ready, "10.0.0.9"⟩⟩)
             refreshCalls := 1, delays := [], elapsed := 0 } :
        WaitRun ComputeInstance)).isSome = true :=
  create_polls_only_compute_instance.1 {}
    (fun _ => .ok ⟨"i-1", none, none, none⟩)
    (fun _ => .ok ⟨"i-1", none, none, some ⟨.ready, "10.0.0.9"⟩⟩)
    { id := .val "i-1", state := .val "COMPUTE_INSTANCE_STATE_READY"
      ipAddress := .val "10.0.0.9" }
    (some { outcome :=
              .success (some ⟨"i-1", none, none, some ⟨.ready, "10.0.0.9"⟩⟩)
            refreshCalls := 1, delays := [], elapsed := 0 })
    rfl

/-- C8: for every reconciler operation of every kind, a failing remote
call makes the operation surface the wrapped error and return before
reaching `State.Set`: the result is a `failure` diagnostic, never a
`success` state write. -/
theorem remote_failure_no_state_write :
    (∀ (data : ComputeInstanceResourceModel)
        (rg : Nat → Except String ComputeInstance) (e : String),
      (computeInstanceCreate data (fun _ => .error e) rg).1 =
        .failure ("Failed to create compute instance: " ++ e)) ∧
    (∀ (data : ComputeInstanceResourceModel)
        (rg : Nat → Except String ComputeInstance) (e : String),
      (computeInstanceUpdate data (fun _ => .error e) rg).1 =
        .failure ("Failed to update compute instance: " ++ e)) ∧
    (∀ (data : ComputeInstanceResourceModel) (e : String),
      computeInstanceDelete data (fun _ => .error e) =
        .failure ("Failed to delete compute instance: " ++ e)) ∧
    (∀ (data : ClusterResourceModel) (e : String),
      clusterCreate data (fun _ => .error e) =
        .failure ("Failed to create cluster: " ++ e)) ∧
    (∀ (data : ClusterResourceModel) (e : String),
      clusterUpdate data (fun _ => .error e) =
        .failure ("Failed to update cluster: " ++ e)) ∧
    (∀ (data : ClusterResourceModel) (e : String),
      clusterDelete data (fun _ => .error e) =
        .failure ("Failed to delete cluster: " ++ e)) ∧
    (∀ (data : HostPoolResourceModel) (e : String),
      hostPoolCreate data (fun _ => .error e) =
        .failure ("Failed to create host pool: " ++ e)) ∧
    (∀ (data : HostPoolResourceModel) (e : String),
      hostPoolUpdate data (fun _ => .error e) =
        .failure ("Failed to update host pool: " ++ e)) ∧
    (∀ (data : HostPoolResourceModel) (e : String),
      hostPoolDelete data (fun _ => .error e) =
        .failure ("Failed to delete host pool: " ++ e)) ∧
    (∀ (data : HostResourceModel) (e : String),
      hostCreate data (fun _ => .error e) =
        .failure ("Failed to create host: " ++ e)) ∧
    (∀ (data : HostResourceModel) (e : String),
      hostUpdate data (fun _ => .error e) =
        .failure ("Failed to update host: " ++ e)) ∧
    (∀ (data : HostResourceModel) (e : String),
      hostDelete data (fun _ => .error e) =
        .failure ("Failed to delete host: " ++ e)) := by
  refine ⟨?_, ?_, ?_, ?_, ?_, ?_, ?_, ?_, ?_, ?_, ?_, ?_⟩
  · rintro ⟨i, n, t, tp, s, ip⟩ rg e; cases tp <;> rfl
  · rintro ⟨i, n, t, tp, s, ip⟩ rg e; cases tp <;> rfl
  · intro data e; rfl
  · rintro ⟨i, n, t, tp, ns, s, a, c⟩ e; cases ns <;> rfl
  · rintro ⟨i, n, t, tp, ns, s, a, c⟩ e; cases ns <;> rfl
  · intro data e; rfl
  · rintro ⟨i, n, hs, s, ho⟩ e; cases hs <;> rfl
  · rintro ⟨i, n, hs, s, ho⟩ e; cases hs <;> rfl
  · intro data e; rfl
  · rintro ⟨i, n, ps, s, c⟩ e; cases ps <;> rfl
  · rintro ⟨i, n, ps, s, c⟩ e; cases ps <;> rfl
  · intro data e; rfl

/-- Witness for C6: a configuration with all durations zero gets all
three defaults. -/
theorem waitForReady_defaults_witness :
    (applyDefaults
        { pendingStates := [], targetStates := []
          refreshFunc := fun _ => ((none : Option Unit), "", none) }).timeout
      = DefaultCreateTimeout :=
  (waitForReady_defaults
    { pendingStates := [], targetStates := []
      refreshFunc := fun _ => ((none : Option Unit), "", none) }).2.1 rfl

end Osac
